import Mathlib

/-!
Verification of the sermon-uploader test-automation core.

This file gives a shallow embedding of the Python sources
`shared/discord_live_notifier.py`,
`backend/test_automation/api_upload_tests.py` and
`backend/test_automation/sunday_morning_stress_test.py`,
and proves (or refutes) the behavioural claims made about them.

Modelling conventions:
* Python `dict`s (insertion-ordered) are association lists
  `List (String × α)`; assignment preserves position of an existing key and
  appends a fresh key at the end, exactly as CPython does.
* `float` arithmetic is modelled over `ℚ`.
* Wall-clock times and ambient nondeterminism (HTTP responses, raised
  exceptions, drawn random values) are explicit parameters.
-/

/-- Python dict assignment `d[k] = v`: replace in place, else append. -/
def dictSet {α : Type} (d : List (String × α)) (k : String) (v : α) :
    List (String × α) :=
  match d with
  | [] => [(k, v)]
  | (k', v') :: rest =>
      if k' = k then (k, v) :: rest else (k', v') :: dictSet rest k v

/-- Python `d.update(u)`: assign every pair of `u` into `d` in order. -/
def dictUpdate {α : Type} (d u : List (String × α)) : List (String × α) :=
  u.foldl (fun acc kv => dictSet acc kv.1 kv.2) d

/-- `ProcessingStage` from `discord_live_notifier.py`. -/
inductive ProcessingStage where
  | DETECTED
  | UPLOADING
  | UPLOADED
  | PROCESSING
  | COMPLETED
  | ERROR
deriving DecidableEq, Repr

/-- Pipeline position of a stage along the order
`DETECTED < UPLOADING < UPLOADED < PROCESSING < COMPLETED`
used by the stage-monotonicity claim (`ERROR` placed on top as terminal). -/
def stageRank : ProcessingStage → ℕ
  | .DETECTED => 0
  | .UPLOADING => 1
  | .UPLOADED => 2
  | .PROCESSING => 3
  | .COMPLETED => 4
  | .ERROR => 5

/-- Per-file metadata dict (`info` argument of `update_progress`). -/
abbrev Info := List (String × String)

/-- `ProgressMessage` dataclass from `discord_live_notifier.py`
(timestamps modelled as rational clock readings). -/
structure ProgressMessage where
  message_id : String
  channel_id : String
  webhook_url : String
  title : String
  created_at : ℚ
  last_updated : ℚ
  stages : List (String × ProcessingStage)
  file_info : List (String × Info)
deriving DecidableEq, Repr

/-- The mutable state of a `DiscordLiveNotifier`: its `active_messages`
dict (message id → tracked message). -/
structure NotifierState where
  active_messages : List (String × ProgressMessage)
deriving DecidableEq, Repr

/-- Result of one `update_progress` call: the state after the call, whether
the remote PATCH was issued, and the returned boolean. -/
structure UpdateResult where
  state : NotifierState
  editSent : Bool
  ok : Bool
deriving DecidableEq, Repr

/-- `DiscordLiveNotifier.update_progress`.
`now` models `get_est_time()`; `patch` models the outcome of the
`session.patch` HTTP call (`none` = the call raised, `some s` = it returned
status `s`).  The source looks the message up under the lock, overwrites the
file's stage whenever the file key is present (no check against the current
stage), merges `info` into `file_info`, stamps `last_updated`, then edits the
remote message and returns `True` exactly on status 200; any exception or an
untracked message id yields `False`. -/
def update_progress (now : ℚ) (st : NotifierState) (message_id file : String)
    (stage : ProcessingStage) (info : Option Info) (patch : Option ℕ) :
    UpdateResult :=
  match List.lookup message_id st.active_messages with
  | none => ⟨st, false, false⟩
  | some message =>
      let m1 := if (List.lookup file message.stages).isSome
        then { message with stages := dictSet message.stages file stage }
        else message
      let m2 := match info with
        | some i =>
            if i ≠ [] then
              let merged := dictUpdate ((List.lookup file m1.file_info).getD []) i
              { m1 with file_info := dictSet m1.file_info file merged }
            else m1
        | none => m1
      let m3 := { m2 with last_updated := now }
      let st' : NotifierState :=
        ⟨dictSet st.active_messages message_id m3⟩
      match patch with
      | some s => ⟨st', true, s == 200⟩
      | none => ⟨st', true, false⟩

/-- `RidgepointFileManager._categorize_file` from `api_upload_tests.py`. -/
def categorize_file (size : ℕ) : String :=
  let mb : ℚ := (size : ℚ) / (1024 * 1024)
  if mb < 100 then "small"
  else if mb < 500 then "medium"
  else if mb < 1000 then "large"
  else "xlarge"

/-- Outcome of one HTTP call made through the `requests` session of
`SermonUploaderAPI` (retries included): either the library raised an
exception carrying `msg`, or a response came back with a status code, a
body text and a parsed JSON body, after `elapsed` seconds. -/
inductive HttpOutcome where
  | exc (msg : String) (elapsed : ℚ)
  | resp (status : ℕ) (text : String) (json : List (String × String)) (elapsed : ℚ)
deriving DecidableEq, Repr

/-- The dictionary returned by the three upload operations of
`SermonUploaderAPI`: the parsed JSON of a 200 response, an
`{"error": ...}` dict, or the literal `{"message": "Upload successful"}`. -/
inductive Payload where
  | jsonVal (entries : List (String × String))
  | errVal (msg : String)
  | msgVal (s : String)
deriving DecidableEq, Repr

/-- Python `payload.get("error")`. -/
def Payload.get_error : Payload → Option String
  | .errVal m => some m
  | .jsonVal entries => List.lookup "error" entries
  | .msgVal _ => none

/-- Python `payload.get("upload_url")`. -/
def Payload.get_upload_url : Payload → Option String
  | .jsonVal entries => List.lookup "upload_url" entries
  | _ => none

/-- `SermonUploaderAPI.upload_direct` (`api_upload_tests.py`): POST to
`/api/upload`; 200 → parsed JSON, other statuses → `HTTP {code}: {body}`
error dict, an exception → its text as the error dict; never raises. -/
def upload_direct (o : HttpOutcome) : Bool × Payload × ℚ :=
  match o with
  | .exc m el => (false, .errVal m, el)
  | .resp status text j el =>
      if status = 200 then (true, .jsonVal j, el)
      else (false, .errVal ("HTTP " ++ toString status ++ ": " ++ text), el)

/-- `SermonUploaderAPI.get_presigned_url`: POST to `/api/upload/presigned`;
same success/error shape as `upload_direct`. -/
def get_presigned_url (o : HttpOutcome) : Bool × Payload × ℚ :=
  match o with
  | .exc m el => (false, .errVal m, el)
  | .resp status text j el =>
      if status = 200 then (true, .jsonVal j, el)
      else (false, .errVal ("HTTP " ++ toString status ++ ": " ++ text), el)

/-- `SermonUploaderAPI.upload_presigned`: PUT the bytes to the presigned
URL; 200 and 204 both count as success. -/
def upload_presigned (o : HttpOutcome) : Bool × Payload × ℚ :=
  match o with
  | .exc m el => (false, .errVal m, el)
  | .resp status text _ el =>
      if status = 200 ∨ status = 204 then (true, .msgVal "Upload successful", el)
      else (false, .errVal ("HTTP " ++ toString status ++ ": " ++ text), el)

/-- `TestFile` dataclass (only the fields the claims touch). -/
structure TestFile where
  name : String
  path : String
  size : ℕ
  category : String
  remote_path : String
deriving DecidableEq, Repr

/-- `UploadResult` dataclass from `api_upload_tests.py`. -/
structure UploadResult where
  test_id : String
  file_name : String
  file_size : ℕ
  method : String
  success : Bool
  duration : ℚ
  error : Option String := none
  throughput_mbps : Option ℚ := none
  response_data : Option Payload := none
  api_response_time : Option ℚ := none
  upload_time : Option ℚ := none
deriving DecidableEq, Repr

/-- `TestMetrics` dataclass from `api_upload_tests.py`
(`start_time`/`end_time` as rational clock readings). -/
structure TestMetrics where
  test_name : String
  start_time : ℚ
  end_time : ℚ
  total_files : ℕ
  successful_uploads : ℕ
  failed_uploads : ℕ
  total_bytes : ℕ
  total_duration : ℚ
  avg_throughput_mbps : ℚ
  success_rate : ℚ
  results : List UploadResult
  min_duration : ℚ
  max_duration : ℚ
  p50_duration : ℚ
  p95_duration : ℚ
  p99_duration : ℚ
  avg_api_response_time : ℚ
  min_api_response_time : ℚ
  max_api_response_time : ℚ
deriving DecidableEq, Repr

/-- Python `sorted` on rationals. -/
def pySorted (l : List ℚ) : List ℚ := l.insertionSort (· ≤ ·)

/-- Python `min(l)` (0 for the empty list, where the source guards with
`if l else 0`). -/
def pyMin (l : List ℚ) : ℚ :=
  match l with
  | [] => 0
  | x :: xs => xs.foldl min x

/-- Python `max(l)` (0 for the empty list, guarded in the source). -/
def pyMax (l : List ℚ) : ℚ :=
  match l with
  | [] => 0
  | x :: xs => xs.foldl max x

/-- Python `statistics.median(l)`: middle element of the sorted data for
odd length, mean of the two middle elements for even length. -/
def pyMedian (l : List ℚ) : ℚ :=
  let s := pySorted l
  let n := s.length
  if n % 2 = 1 then s.getD (n / 2) 0
  else (s.getD (n / 2 - 1) 0 + s.getD (n / 2) 0) / 2

/-- The `i`-th (1-based) entry of Python
`statistics.quantiles(l, n=n)` with the default exclusive method:
`m = ld + 1`, `j = clamp(i*m // n, 1, ld-1)`, `delta = i*m - j*n`,
`(data[j-1]*(n-delta) + data[j]*delta) / n` on the sorted data. -/
def pyQuantilePoint (l : List ℚ) (n i : ℕ) : ℚ :=
  let s := pySorted l
  let ld := s.length
  let m := ld + 1
  let j0 := i * m / n
  let j := if j0 < 1 then 1 else if ld - 1 < j0 then ld - 1 else j0
  let de : ℤ := (i * m : ℤ) - (j * n : ℤ)
  (s.getD (j - 1) 0 * ((n : ℚ) - (de : ℚ)) + s.getD j 0 * (de : ℚ)) / n

/-- `APIUploadTester._calculate_metrics` (`api_upload_tests.py`):
reduces a result list to the `TestMetrics` summary.  Truthiness tests of
the source (`r.api_response_time and r.api_response_time > 0`,
`if r.throughput_mbps`) are spelled out on the `Option ℚ` fields. -/
def calculate_metrics (test_name : String) (start_time end_time : ℚ)
    (results : List UploadResult) : TestMetrics :=
  let successful_results := results.filter (fun r => r.success)
  let failed_results := results.filter (fun r => !r.success)
  let durations := results.filterMap
    (fun r => if 0 < r.duration then some r.duration else none)
  let api_times := results.filterMap
    (fun r => match r.api_response_time with
      | some t => if t ≠ 0 ∧ 0 < t then some t else none
      | none => none)
  let total_bytes := (successful_results.map (fun r => r.file_size)).sum
  let total_duration := end_time - start_time
  { test_name := test_name
    start_time := start_time
    end_time := end_time
    total_files := results.length
    successful_uploads := successful_results.length
    failed_uploads := failed_results.length
    total_bytes := total_bytes
    total_duration := total_duration
    avg_throughput_mbps :=
      if successful_results ≠ [] then
        ((successful_results.filterMap
            (fun r => match r.throughput_mbps with
              | some t => if t ≠ 0 then some t else none
              | none => none)).sum) / successful_results.length
      else 0
    success_rate :=
      if results ≠ [] then
        (successful_results.length : ℚ) / results.length * 100
      else 0
    results := results
    min_duration := if durations ≠ [] then pyMin durations else 0
    max_duration := if durations ≠ [] then pyMax durations else 0
    p50_duration := if durations ≠ [] then pyMedian durations else 0
    p95_duration :=
      if 20 ≤ durations.length then pyQuantilePoint durations 20 19
      else if durations ≠ [] then pyMax durations else 0
    p99_duration :=
      if 100 ≤ durations.length then pyQuantilePoint durations 100 99
      else if durations ≠ [] then pyMax durations else 0
    avg_api_response_time :=
      if api_times ≠ [] then api_times.sum / api_times.length else 0
    min_api_response_time := if api_times ≠ [] then pyMin api_times else 0
    max_api_response_time := if api_times ≠ [] then pyMax api_times else 0 }

/-- `APIUploadTester._test_presigned_upload`: two-step presigned flow.
`now` models `int(time.time())` used for the test id; `getO`/`putO` are the
outcomes of the presigned-URL POST and of the PUT (the PUT outcome also
covers a missing/`None` `upload_url`, where `session.put` raises). -/
def test_presigned_upload (now : ℤ) (test_file : TestFile)
    (getO putO : HttpOutcome) : UploadResult :=
  let test_id := "presigned_" ++ toString now
  let g := get_presigned_url getO
  let api_time := g.2.2
  if !g.1 then
    { test_id := test_id
      file_name := test_file.name
      file_size := test_file.size
      method := "presigned"
      success := false
      duration := api_time
      error := g.2.1.get_error
      api_response_time := some api_time }
  else
    let u := upload_presigned putO
    let upload_time := u.2.2
    let total_duration := api_time + upload_time
    let throughput :=
      if 0 < upload_time then (test_file.size : ℚ) / (1024 * 1024) / upload_time
      else 0
    { test_id := test_id
      file_name := test_file.name
      file_size := test_file.size
      method := "presigned"
      success := u.1
      duration := total_duration
      error := if !u.1 then u.2.1.get_error else none
      throughput_mbps := some throughput
      response_data := some u.2.1
      api_response_time := some api_time
      upload_time := some upload_time }

/-- What one worker of the stress tester experiences
(`SundayMorningStressTester._upload_with_monitoring`): either an exception
escapes the body of the `try` (e.g. the SFTP read fails) and is caught by
the worker, or the presigned flow runs with the given HTTP outcomes. -/
inductive WorkerOutcome where
  | raised (msg : String)
  | attempt (now : ℤ) (getO putO : HttpOutcome)
deriving DecidableEq, Repr

/-- `SundayMorningStressTester._upload_with_monitoring`: never raises — a
worker-level exception becomes a failed `UploadResult` carrying its text. -/
def upload_with_monitoring (test_file : TestFile) (test_id : String)
    (w : WorkerOutcome) : UploadResult :=
  match w with
  | .raised m =>
      { test_id := test_id
        file_name := test_file.name
        file_size := test_file.size
        method := "stress_monitored"
        success := false
        duration := 0
        error := some m }
  | .attempt now getO putO => test_presigned_upload now test_file getO putO

/-- `SundayMorningStressTester._run_immediate_scenario`, one worker outcome
per file: every file is submitted, and the collection loop walks the
futures in submission order appending one result each (the worker itself
never raises, so the collection-side `except` branch is unreachable when,
as modelled here, no future times out). -/
def run_immediate_scenario (test_files : List TestFile)
    (ws : List WorkerOutcome) : List UploadResult :=
  (test_files.zip ws).enum.map
    (fun p => upload_with_monitoring p.2.1 ("immediate_" ++ toString p.1) p.2.2)

/-- `interval_seconds` of `_run_staggered_scenario`:
`(scenario.duration_minutes * 60) / total_files`. -/
def interval_seconds (duration_minutes total_files : ℕ) : ℚ :=
  (duration_minutes * 60 : ℚ) / total_files

/-- `random.uniform(a, b)` at draw `u ∈ [0, 1)`: `a + (b - a) * u`. -/
def pyUniform (a b u : ℚ) : ℚ := a + (b - a) * u

/-- Scheduled start delay of file `i` in
`SundayMorningStressTester._run_staggered_scenario`:
`i * interval_seconds + random.uniform(0, interval_seconds * 0.3)`. -/
def staggered_delay (duration_minutes total_files i : ℕ) (u : ℚ) : ℚ :=
  let interval := interval_seconds duration_minutes total_files
  (i : ℚ) * interval + pyUniform 0 (interval * (3 / 10)) u

/-- JSON value tree, modelling what `json.dump(report, f, indent=2,
default=str)` serializes (CPython dicts keep insertion order, so an object
is an ordered field list). -/
inductive JVal where
  | jnull
  | jbool (b : Bool)
  | jnum (q : ℚ)
  | jstr (s : String)
  | jarr (xs : List JVal)
  | jobj (fields : List (String × JVal))

mutual

/-- Deterministic rendering of a `JVal` to bytes (compact form; the
`indent=2` pretty-printer of `json.dump` is likewise a deterministic
function of the tree, so byte-level statements transfer). -/
def JVal.render : JVal → String
  | .jnull => "null"
  | .jbool b => if b then "true" else "false"
  | .jnum q => toString q
  | .jstr s => "\"" ++ s ++ "\""
  | .jarr xs => "[" ++ JVal.renderList xs ++ "]"
  | .jobj fs => "\x7b" ++ JVal.renderFields fs ++ "\x7d"

/-- Comma-separated rendering of array elements. -/
def JVal.renderList : List JVal → String
  | [] => ""
  | [x] => x.render
  | x :: xs => x.render ++ "," ++ JVal.renderList xs

/-- Comma-separated rendering of object fields. -/
def JVal.renderFields : List (String × JVal) → String
  | [] => ""
  | [(k, v)] => "\"" ++ k ++ "\":" ++ v.render
  | (k, v) :: fs => "\"" ++ k ++ "\":" ++ v.render ++ "," ++ JVal.renderFields fs

end

/-- `None`/`str` fields under `json.dump`. -/
def jOptStr : Option String → JVal
  | none => .jnull
  | some s => .jstr s

/-- `None`/number fields under `json.dump`. -/
def jOptNum : Option ℚ → JVal
  | none => .jnull
  | some q => .jnum q

/-- Serialization of the `response_data` payload dict. -/
def payloadJson : Payload → JVal
  | .jsonVal entries => .jobj (entries.map (fun p => (p.1, JVal.jstr p.2)))
  | .errVal m => .jobj [("error", .jstr m)]
  | .msgVal s => .jobj [("message", .jstr s)]

/-- `None`/payload fields under `json.dump`. -/
def jOptPayload : Option Payload → JVal
  | none => .jnull
  | some p => payloadJson p

/-- `dataclasses.asdict` of an `UploadResult`, serialized. -/
def uploadResultJson (r : UploadResult) : JVal :=
  .jobj [
    ("test_id", .jstr r.test_id),
    ("file_name", .jstr r.file_name),
    ("file_size", .jnum r.file_size),
    ("method", .jstr r.method),
    ("success", .jbool r.success),
    ("duration", .jnum r.duration),
    ("error", jOptStr r.error),
    ("throughput_mbps", jOptNum r.throughput_mbps),
    ("response_data", jOptPayload r.response_data),
    ("api_response_time", jOptNum r.api_response_time),
    ("upload_time", jOptNum r.upload_time)]

/-- One entry of `report["test_results"]` built by
`APIUploadTester.generate_report`. -/
def testResultJson (metrics : TestMetrics) : JVal :=
  .jobj [
    ("test_name", .jstr metrics.test_name),
    ("duration_seconds", .jnum metrics.total_duration),
    ("files_tested", .jnum metrics.total_files),
    ("success_rate_percent", .jnum metrics.success_rate),
    ("total_data_gb", .jnum ((metrics.total_bytes : ℚ) / (1024 ^ 3))),
    ("avg_throughput_mbps", .jnum metrics.avg_throughput_mbps),
    ("performance_metrics", .jobj [
      ("min_upload_time", .jnum metrics.min_duration),
      ("max_upload_time", .jnum metrics.max_duration),
      ("median_upload_time", .jnum metrics.p50_duration),
      ("p95_upload_time", .jnum metrics.p95_duration),
      ("p99_upload_time", .jnum metrics.p99_duration),
      ("avg_api_response_time", .jnum metrics.avg_api_response_time)]),
    ("failed_uploads", .jarr ((metrics.results.filter (fun r => !r.success)).map
      (fun r => JVal.jobj [
        ("file", .jstr r.file_name),
        ("error", jOptStr r.error),
        ("method", .jstr r.method)]))),
    ("detailed_results", .jarr (metrics.results.map uploadResultJson))]

/-- `APIUploadTester.generate_report`: the JSON report tree.  `timestamp`
models `datetime.now().isoformat()` at the moment of the call; the config
strings come from the loaded configuration and are fixed across calls on
one tester. -/
def generate_report (timestamp api_endpoint ridgepoint_host : String)
    (metrics_list : List TestMetrics) : JVal :=
  .jobj [
    ("test_summary", .jobj [
      ("timestamp", .jstr timestamp),
      ("total_tests", .jnum metrics_list.length),
      ("api_endpoint", .jstr api_endpoint),
      ("ridgepoint_host", .jstr ridgepoint_host)]),
    ("test_results", .jarr (metrics_list.map testResultJson))]

/-- Overwrite the embedded generation-timestamp field
(`report["test_summary"]["timestamp"]`) of a report tree. -/
def setReportTimestamp (t : String) (j : JVal) : JVal :=
  match j with
  | .jobj (("test_summary", .jobj (("timestamp", _) :: summaryRest)) :: rest) =>
      .jobj (("test_summary", .jobj (("timestamp", .jstr t) :: summaryRest)) :: rest)
  | other => other

/-- A concrete successful upload result, used to instantiate witnesses. -/
def sampleOkResult : UploadResult :=
  { test_id := "t", file_name := "f", file_size := 4, method := "direct",
    success := true, duration := 2 }

/-- A concrete tracked message (file "a" completed, file "b" errored),
used to instantiate the notifier theorems. -/
def sampleMsg : ProgressMessage :=
  { message_id := "m1", channel_id := "c", webhook_url := "w", title := "t",
    created_at := 0, last_updated := 0,
    stages := [("a", .COMPLETED), ("b", .ERROR)], file_info := [] }

/-- A notifier state tracking `sampleMsg` under id `"m1"`. -/
def sampleState : NotifierState := ⟨[("m1", sampleMsg)]⟩

/-- Dict assignment makes the assigned key map to the new value. -/
lemma lookup_dictSet_self {α : Type} (d : List (String × α)) (k : String)
    (v : α) : List.lookup k (dictSet d k v) = some v := by
  induction d with
  | nil => simp [dictSet, List.lookup]
  | cons p rest ih =>
      obtain ⟨k', v'⟩ := p
      by_cases h : k' = k
      · subst h
        simp [dictSet, List.lookup]
      · simp only [dictSet, if_neg h, List.lookup]
        rw [show (k == k') = false by simp [Ne.symm h]]
        exact ih

/-- A boolean filter and its negation split the length of a list. -/
lemma length_filter_add_length_filter_not {α : Type} (l : List α)
    (p : α → Bool) :
    (l.filter p).length + (l.filter (fun a => !p a)).length = l.length := by
  induction l with
  | nil => rfl
  | cons x xs ih =>
      cases h : p x <;> simp [List.filter_cons, h, ← ih] <;> omega

/-- C2: for the empty result list (and any start/end times),
`_calculate_metrics` returns with every numeric summary field equal to
zero: counts, bytes, throughput, success rate, all duration percentiles
and all API-response-time aggregates. -/
theorem calculate_metrics_empty_all_zero (test_name : String)
    (start_time end_time : ℚ) :
    (calculate_metrics test_name start_time end_time []).total_files = 0 ∧
    (calculate_metrics test_name start_time end_time []).successful_uploads = 0 ∧
    (calculate_metrics test_name start_time end_time []).failed_uploads = 0 ∧
    (calculate_metrics test_name start_time end_time []).total_bytes = 0 ∧
    (calculate_metrics test_name start_time end_time []).avg_throughput_mbps = 0 ∧
    (calculate_metrics test_name start_time end_time []).success_rate = 0 ∧
    (calculate_metrics test_name start_time end_time []).min_duration = 0 ∧
    (calculate_metrics test_name start_time end_time []).max_duration = 0 ∧
    (calculate_metrics test_name start_time end_time []).p50_duration = 0 ∧
    (calculate_metrics test_name start_time end_time []).p95_duration = 0 ∧
    (calculate_metrics test_name start_time end_time []).p99_duration = 0 ∧
    (calculate_metrics test_name start_time end_time []).avg_api_response_time = 0 ∧
    (calculate_metrics test_name start_time end_time []).min_api_response_time = 0 ∧
    (calculate_metrics test_name start_time end_time []).max_api_response_time = 0 := by
  simp [calculate_metrics]

/-- C3: for every non-empty result list, `total_files` is the sum of
successful and failed uploads, `success_rate` is
`successful / total × 100`, and `successful_uploads` counts exactly the
results with `success = true`. -/
theorem calculate_metrics_counts (test_name : String) (s e : ℚ)
    (results : List UploadResult) (h : results ≠ []) :
    let M := calculate_metrics test_name s e results
    M.total_files = M.successful_uploads + M.failed_uploads ∧
    M.success_rate = (M.successful_uploads : ℚ) / M.total_files * 100 ∧
    M.successful_uploads = (results.filter (fun r => r.success)).length := by
  refine ⟨?_, ?_, rfl⟩
  · exact (length_filter_add_length_filter_not results (fun r => r.success)).symm
  · simp [calculate_metrics, h]

/-- Witness for `calculate_metrics_counts` at a concrete one-element
result list. -/
theorem calculate_metrics_counts_witness :
    ([sampleOkResult] ≠ ([] : List UploadResult)) ∧
    (let M := calculate_metrics "n" 0 1 [sampleOkResult]
     M.total_files = M.successful_uploads + M.failed_uploads ∧
     M.success_rate = (M.successful_uploads : ℚ) / M.total_files * 100 ∧
     M.successful_uploads =
       ([sampleOkResult].filter (fun r => r.success)).length) :=
  ⟨by simp, calculate_metrics_counts "n" 0 1 [sampleOkResult] (by simp)⟩

/-- C5: the three `SermonUploaderAPI` operations never raise: a transport
exception is returned as `success = false` with the exception text as the
`error` entry, and any non-2xx status is returned as `success = false`
with the response body captured inside the `error` entry. -/
theorem uploadClient_error_capture (m : String) (el : ℚ) (status : ℕ)
    (text : String) (j : List (String × String))
    (hs : ¬(200 ≤ status ∧ status ≤ 299)) :
    upload_direct (.exc m el) = (false, .errVal m, el) ∧
    get_presigned_url (.exc m el) = (false, .errVal m, el) ∧
    upload_presigned (.exc m el) = (false, .errVal m, el) ∧
    upload_direct (.resp status text j el)
      = (false, .errVal ("HTTP " ++ toString status ++ ": " ++ text), el) ∧
    get_presigned_url (.resp status text j el)
      = (false, .errVal ("HTTP " ++ toString status ++ ": " ++ text), el) ∧
    upload_presigned (.resp status text j el)
      = (false, .errVal ("HTTP " ++ toString status ++ ": " ++ text), el) := by
  have h200 : status ≠ 200 := by omega
  have h204 : status ≠ 204 := by omega
  simp [upload_direct, get_presigned_url, upload_presigned, h200, h204]

/-- Witness for `uploadClient_error_capture` at a concrete exception text
and a concrete 500 response. -/
theorem uploadClient_error_capture_witness :
    ¬((200 : ℕ) ≤ 500 ∧ (500 : ℕ) ≤ 299) ∧
    (upload_direct (.exc "boom" 1) = (false, .errVal "boom", 1) ∧
     get_presigned_url (.exc "boom" 1) = (false, .errVal "boom", 1) ∧
     upload_presigned (.exc "boom" 1) = (false, .errVal "boom", 1) ∧
     upload_direct (.resp 500 "oops" [] 1)
       = (false, .errVal ("HTTP " ++ toString (500 : ℕ) ++ ": " ++ "oops"), 1) ∧
     get_presigned_url (.resp 500 "oops" [] 1)
       = (false, .errVal ("HTTP " ++ toString (500 : ℕ) ++ ": " ++ "oops"), 1) ∧
     upload_presigned (.resp 500 "oops" [] 1)
       = (false, .errVal ("HTTP " ++ toString (500 : ℕ) ++ ": " ++ "oops"), 1)) :=
  ⟨by omega, uploadClient_error_capture "boom" 1 500 "oops" [] (by omega)⟩

/-- C7: in the staggered pattern with a 600-second budget and 10 files,
every scheduled start delay differs from `i × 60` seconds by less than
18 seconds, whatever value the jitter source draws. -/
theorem staggered_delay_jitter_bound (i : ℕ) (u : ℚ) (hi : i < 10)
    (hu0 : 0 ≤ u) (hu1 : u < 1) :
    |staggered_delay 10 10 i u - (i : ℚ) * 60| < 18 := by
  have hd : staggered_delay 10 10 i u - (i : ℚ) * 60 = 18 * u := by
    simp only [staggered_delay, interval_seconds, pyUniform]
    norm_num
  rw [hd, abs_of_nonneg (by positivity)]
  linarith

/-- Witness for `staggered_delay_jitter_bound` at file index 3 and jitter
draw 1/2. -/
theorem staggered_delay_jitter_bound_witness :
    (3 < 10 ∧ (0 : ℚ) ≤ 1 / 2 ∧ (1 / 2 : ℚ) < 1) ∧
    |staggered_delay 10 10 3 (1 / 2) - (3 : ℚ) * 60| < 18 :=
  ⟨⟨by omega, by norm_num, by norm_num⟩,
    staggered_delay_jitter_bound 3 (1 / 2) (by omega) (by norm_num) (by norm_num)⟩

/-- C8 counterexample: at 1 050 000 000 bytes (≈1001.4 MiB, strictly below
1 GB = 2³⁰ bytes) the code categorizes the file as `"xlarge"` although the
size does not exceed 1 GB, so "`xlarge` exactly when the size exceeds
1 GB" is false at this input. -/
theorem categorize_file_gb_counterexample :
    ¬(categorize_file 1050000000 = "xlarge" ↔ 2 ^ 30 < 1050000000) := by
  intro hiff
  have c1 : ¬((1050000000 : ℚ) / (1024 * 1024) < 100) := by norm_num
  have c2 : ¬((1050000000 : ℚ) / (1024 * 1024) < 500) := by norm_num
  have c3 : ¬((1050000000 : ℚ) / (1024 * 1024) < 1000) := by norm_num
  have hx : categorize_file 1050000000 = "xlarge" := by
    simp only [categorize_file]
    rw [if_neg (by push_cast; exact c1), if_neg (by push_cast; exact c2),
      if_neg (by push_cast; exact c3)]
  have := hiff.mp hx
  omega

/-- C8 amended: the thresholds are 100 MB, 500 MB and 1000 MB with
1 MB = 2²⁰ bytes (the top boundary is 1000 MB = 1 048 576 000 bytes, not
1 GB = 2³⁰ bytes): `small` below 100 MB, `medium` in [100 MB, 500 MB),
`large` in [500 MB, 1000 MB), `xlarge` at or above 1000 MB. -/
theorem categorize_file_thresholds (size : ℕ) (h : 0 < size) :
    (categorize_file size = "small" ↔ size < 100 * 1048576) ∧
    (categorize_file size = "medium" ↔
      100 * 1048576 ≤ size ∧ size < 500 * 1048576) ∧
    (categorize_file size = "large" ↔
      500 * 1048576 ≤ size ∧ size < 1000 * 1048576) ∧
    (categorize_file size = "xlarge" ↔ 1000 * 1048576 ≤ size) := by
  clear h
  have key : ∀ c : ℕ, ((size : ℚ) / (1024 * 1024) < ((c : ℕ) : ℚ)) ↔
      size < c * 1048576 := by
    intro c
    rw [div_lt_iff₀ (by norm_num)]
    rw [show ((c : ℕ) : ℚ) * (1024 * 1024) = (((c * 1048576 : ℕ) : ℕ) : ℚ) by
      push_cast; ring]
    exact Nat.cast_lt
  have k100 := key 100
  have k500 := key 500
  have k1000 := key 1000
  push_cast at k100 k500 k1000
  simp only [categorize_file]
  split_ifs with h1 h2 h3
  · rw [k100] at h1
    refine ⟨?_, ?_, ?_, ?_⟩ <;> simp <;> omega
  · rw [k100] at h1
    rw [k500] at h2
    refine ⟨?_, ?_, ?_, ?_⟩ <;> simp <;> omega
  · rw [k100] at h1
    rw [k500] at h2
    rw [k1000] at h3
    refine ⟨?_, ?_, ?_, ?_⟩ <;> simp <;> omega
  · rw [k100] at h1
    rw [k500] at h2
    rw [k1000] at h3
    refine ⟨?_, ?_, ?_, ?_⟩ <;> simp <;> omega

/-- Witness for `categorize_file_thresholds` at a 200 MB file. -/
theorem categorize_file_thresholds_witness :
    0 < 209715200 ∧
    ((categorize_file 209715200 = "small" ↔ 209715200 < 100 * 1048576) ∧
     (categorize_file 209715200 = "medium" ↔
       100 * 1048576 ≤ 209715200 ∧ 209715200 < 500 * 1048576) ∧
     (categorize_file 209715200 = "large" ↔
       500 * 1048576 ≤ 209715200 ∧ 209715200 < 1000 * 1048576) ∧
     (categorize_file 209715200 = "xlarge" ↔ 1000 * 1048576 ≤ 209715200)) :=
  ⟨by omega, categorize_file_thresholds 209715200 (by omega)⟩

/-- C9: two report trees generated from the same metrics list (and the
same configuration) at different wall-clock instants agree everywhere
except in the generation-timestamp field: overwriting that one field with
a common value makes the trees — and their serialized bytes — identical. -/
theorem generate_report_deterministic_up_to_timestamp
    (t t1 t2 api host : String) (ms : List TestMetrics) :
    setReportTimestamp t (generate_report t1 api host ms)
      = setReportTimestamp t (generate_report t2 api host ms) ∧
    (setReportTimestamp t (generate_report t1 api host ms)).render
      = (setReportTimestamp t (generate_report t2 api host ms)).render := by
  constructor
  · rfl
  · rfl

/-- C10: for a tracked message and a filename absent from its stage
mapping, `update_progress` leaves the stage mapping of that message
unchanged, still issues the remote edit, and returns `True` exactly when
the edit came back with status 200. -/
theorem update_progress_unknown_file (now : ℚ) (st : NotifierState)
    (mid file : String) (stage : ProcessingStage) (info : Option Info)
    (patch : Option ℕ) (msg : ProgressMessage)
    (hm : List.lookup mid st.active_messages = some msg)
    (hf : List.lookup file msg.stages = none) :
    ((List.lookup mid
        (update_progress now st mid file stage info patch).state.active_messages).map
      (fun m => m.stages)) = some msg.stages ∧
    (update_progress now st mid file stage info patch).editSent = true ∧
    ((update_progress now st mid file stage info patch).ok = true ↔
      patch = some 200) := by
  cases info <;> cases patch <;>
    simp [update_progress, hm, hf, lookup_dictSet_self] <;>
    split_ifs <;>
    simp [lookup_dictSet_self]

/-- Witness for `update_progress_unknown_file`: file `"zzz"` is not
tracked in `sampleMsg`, the patch returns 200. -/
theorem update_progress_unknown_file_witness :
    (List.lookup "m1" sampleState.active_messages = some sampleMsg ∧
     List.lookup "zzz" sampleMsg.stages = none) ∧
    (((List.lookup "m1"
        (update_progress 1 sampleState "m1" "zzz" .UPLOADING none
          (some 200)).state.active_messages).map
      (fun m => m.stages)) = some sampleMsg.stages ∧
    (update_progress 1 sampleState "m1" "zzz" .UPLOADING none
      (some 200)).editSent = true ∧
    ((update_progress 1 sampleState "m1" "zzz" .UPLOADING none
      (some 200)).ok = true ↔ (some 200 : Option ℕ) = some 200)) :=
  ⟨⟨by decide, by decide⟩,
    update_progress_unknown_file 1 sampleState "m1" "zzz" .UPLOADING none
      (some 200) sampleMsg (by decide) (by decide)⟩

/-- C1 counterexample: in a state tracking file `"a"` at `COMPLETED` and
file `"b"` at `ERROR`, a single `update_progress` call moves `"a"` back to
`UPLOADING` (a regression along the pipeline order), and another moves
`"b"` out of `ERROR` to `DETECTED` — so stages are not monotonic and
`ERROR` is not terminal under `update_progress`. -/
theorem update_progress_stage_regression_counterexample :
    (List.lookup "a" sampleMsg.stages = some .COMPLETED ∧
     ((List.lookup "m1" (update_progress 1 sampleState "m1" "a"
        .UPLOADING none (some 200)).state.active_messages).map
        (fun m => List.lookup "a" m.stages)) = some (some .UPLOADING) ∧
     stageRank .UPLOADING < stageRank .COMPLETED) ∧
    (List.lookup "b" sampleMsg.stages = some .ERROR ∧
     ((List.lookup "m1" (update_progress 1 sampleState "m1" "b"
        .DETECTED none (some 200)).state.active_messages).map
        (fun m => List.lookup "b" m.stages)) = some (some .DETECTED) ∧
     ProcessingStage.DETECTED ≠ .ERROR) := by
  decide

/-- C1 amended: `update_progress` performs a last-writer-wins assignment —
for a tracked message and a filename present in its stage mapping, the
file's stage after the call is exactly the stage argument, whatever the
previous stage was (no monotonicity check, no `ERROR` freezing; ordering
is the callers' responsibility). -/
theorem update_progress_last_writer_wins (now : ℚ) (st : NotifierState)
    (mid file : String) (stage : ProcessingStage) (info : Option Info)
    (patch : Option ℕ) (msg : ProgressMessage)
    (hm : List.lookup mid st.active_messages = some msg)
    (hf : (List.lookup file msg.stages).isSome = true) :
    ((List.lookup mid
        (update_progress now st mid file stage info patch).state.active_messages).map
      (fun m => List.lookup file m.stages)) = some (some stage) := by
  cases info <;> cases patch <;>
    simp [update_progress, hm, hf, lookup_dictSet_self] <;>
    split_ifs <;>
    simp [lookup_dictSet_self]

/-- Witness for `update_progress_last_writer_wins`: file `"a"` is tracked
at `COMPLETED` and is overwritten to `UPLOADING`. -/
theorem update_progress_last_writer_wins_witness :
    (List.lookup "m1" sampleState.active_messages = some sampleMsg ∧
     (List.lookup "a" sampleMsg.stages).isSome = true) ∧
    ((List.lookup "m1" (update_progress 1 sampleState "m1" "a" .UPLOADING
        none (some 200)).state.active_messages).map
      (fun m => List.lookup "a" m.stages)) = some (some .UPLOADING) :=
  ⟨⟨by decide, by decide⟩,
    update_progress_last_writer_wins 1 sampleState "m1" "a" .UPLOADING none
      (some 200) sampleMsg (by decide) (by decide)⟩

/-- C6: an immediate-pattern scenario over 3 files in which upload #2 hits
a transport exception (the HTTP library raises with non-empty text `m`)
while the other two uploads succeed completes without aborting: the result
list has exactly 3 entries, exactly one entry has `success = false`, and
every failed entry carries a non-empty `error`. -/
theorem immediate_scenario_one_transport_exception
    (f1 f2 f3 : TestFile) (w1 w3 : WorkerOutcome) (n : ℤ) (m : String)
    (p : HttpOutcome) (el : ℚ) (hm : m ≠ "")
    (h1 : (upload_with_monitoring f1 "immediate_0" w1).success = true)
    (h3 : (upload_with_monitoring f3 "immediate_2" w3).success = true) :
    (run_immediate_scenario [f1, f2, f3]
        [w1, .attempt n (.exc m el) p, w3]).length = 3 ∧
    ((run_immediate_scenario [f1, f2, f3]
        [w1, .attempt n (.exc m el) p, w3]).filter
      (fun r => !r.success)).length = 1 ∧
    ∀ r ∈ run_immediate_scenario [f1, f2, f3]
        [w1, .attempt n (.exc m el) p, w3],
      r.success = false → ∃ s, r.error = some s ∧ s ≠ "" := by
  have hr2 : upload_with_monitoring f2 "immediate_1"
      (.attempt n (.exc m el) p) =
      { test_id := "presigned_" ++ toString n, file_name := f2.name,
        file_size := f2.size, method := "presigned", success := false,
        duration := el, error := some m, api_response_time := some el } := by
    simp [upload_with_monitoring, test_presigned_upload, get_presigned_url,
      Payload.get_error]
  have hrs : run_immediate_scenario [f1, f2, f3]
      [w1, .attempt n (.exc m el) p, w3] =
      [upload_with_monitoring f1 ("immediate_" ++ toString (0 : ℕ)) w1,
       upload_with_monitoring f2 ("immediate_" ++ toString (1 : ℕ))
         (.attempt n (.exc m el) p),
       upload_with_monitoring f3 ("immediate_" ++ toString (2 : ℕ)) w3] := by
    rfl
  rw [show ("immediate_" ++ toString (0 : ℕ)) = "immediate_0" from rfl,
    show ("immediate_" ++ toString (1 : ℕ)) = "immediate_1" from rfl,
    show ("immediate_" ++ toString (2 : ℕ)) = "immediate_2" from rfl] at hrs
  rw [hrs, hr2]
  refine ⟨rfl, ?_, ?_⟩
  · simp [List.filter, h1, h3]
  · intro r hr hfail
    simp only [List.mem_cons, List.not_mem_nil, or_false] at hr
    rcases hr with rfl | rfl | rfl
    · rw [h1] at hfail
      cases hfail
    · exact ⟨m, rfl, hm⟩
    · rw [h3] at hfail
      cases hfail

/-- Witness for `immediate_scenario_one_transport_exception`: three equal
files, uploads 1 and 3 run a fully successful presigned flow, upload 2
raises with text `"connection reset"`. -/
theorem immediate_scenario_one_transport_exception_witness :
    (("connection reset" : String) ≠ "" ∧
     (upload_with_monitoring
        ⟨"f.wav", "/d/f.wav", 7, "small", "/d/f.wav"⟩ "immediate_0"
        (.attempt 0 (.resp 200 "" [("upload_url", "u")] 1)
          (.resp 200 "" [] 1))).success = true ∧
     (upload_with_monitoring
        ⟨"f.wav", "/d/f.wav", 7, "small", "/d/f.wav"⟩ "immediate_2"
        (.attempt 0 (.resp 200 "" [("upload_url", "u")] 1)
          (.resp 200 "" [] 1))).success = true) ∧
    ((run_immediate_scenario
        [⟨"f.wav", "/d/f.wav", 7, "small", "/d/f.wav"⟩,
         ⟨"f.wav", "/d/f.wav", 7, "small", "/d/f.wav"⟩,
         ⟨"f.wav", "/d/f.wav", 7, "small", "/d/f.wav"⟩]
        [.attempt 0 (.resp 200 "" [("upload_url", "u")] 1)
           (.resp 200 "" [] 1),
         .attempt 0 (.exc "connection reset" 1) (.resp 200 "" [] 1),
         .attempt 0 (.resp 200 "" [("upload_url", "u")] 1)
           (.resp 200 "" [] 1)]).length = 3 ∧
     ((run_immediate_scenario
        [⟨"f.wav", "/d/f.wav", 7, "small", "/d/f.wav"⟩,
         ⟨"f.wav", "/d/f.wav", 7, "small", "/d/f.wav"⟩,
         ⟨"f.wav", "/d/f.wav", 7, "small", "/d/f.wav"⟩]
        [.attempt 0 (.resp 200 "" [("upload_url", "u")] 1)
           (.resp 200 "" [] 1),
         .attempt 0 (.exc "connection reset" 1) (.resp 200 "" [] 1),
         .attempt 0 (.resp 200 "" [("upload_url", "u")] 1)
           (.resp 200 "" [] 1)]).filter
       (fun r => !r.success)).length = 1 ∧
     ∀ r ∈ run_immediate_scenario
        [⟨"f.wav", "/d/f.wav", 7, "small", "/d/f.wav"⟩,
         ⟨"f.wav", "/d/f.wav", 7, "small", "/d/f.wav"⟩,
         ⟨"f.wav", "/d/f.wav", 7, "small", "/d/f.wav"⟩]
        [.attempt 0 (.resp 200 "" [("upload_url", "u")] 1)
           (.resp 200 "" [] 1),
         .attempt 0 (.exc "connection reset" 1) (.resp 200 "" [] 1),
         .attempt 0 (.resp 200 "" [("upload_url", "u")] 1)
           (.resp 200 "" [] 1)],
       r.success = false → ∃ s, r.error = some s ∧ s ≠ "") :=
  ⟨⟨by decide, by decide, by decide⟩,
    immediate_scenario_one_transport_exception
      ⟨"f.wav", "/d/f.wav", 7, "small", "/d/f.wav"⟩
      ⟨"f.wav", "/d/f.wav", 7, "small", "/d/f.wav"⟩
      ⟨"f.wav", "/d/f.wav", 7, "small", "/d/f.wav"⟩
      (.attempt 0 (.resp 200 "" [("upload_url", "u")] 1) (.resp 200 "" [] 1))
      (.attempt 0 (.resp 200 "" [("upload_url", "u")] 1) (.resp 200 "" [] 1))
      0 "connection reset" (.resp 200 "" [] 1) 1
      (by decide) (by decide) (by decide)⟩

/-- `pySorted` sorts. -/
lemma pySorted_sorted (d : List ℚ) : (pySorted d).Sorted (· ≤ ·) :=
  List.sorted_insertionSort _ d

/-- `pySorted` permutes its input. -/
lemma pySorted_perm (d : List ℚ) : List.Perm (pySorted d) d :=
  List.perm_insertionSort _ d

/-- `pySorted` preserves length. -/
lemma pySorted_length (d : List ℚ) : (pySorted d).length = d.length :=
  (pySorted_perm d).length_eq

/-- In-bounds `getD` entries are members. -/
lemma getD_mem_of_lt (l : List ℚ) (i : ℕ) (h : i < l.length) :
    l.getD i 0 ∈ l := by
  rw [List.getD_eq_getElem l 0 h]
  exact List.getElem_mem h

/-- Entries of a sorted list are monotone in the index. -/
lemma sorted_getD_mono (l : List ℚ) (hs : l.Sorted (· ≤ ·)) {i j : ℕ}
    (hij : i ≤ j) (hj : j < l.length) : l.getD i 0 ≤ l.getD j 0 := by
  have hi : i < l.length := lt_of_le_of_lt hij hj
  rw [List.getD_eq_getElem l 0 hi, List.getD_eq_getElem l 0 hj]
  rcases Nat.eq_or_lt_of_le hij with rfl | hlt
  · exact le_refl _
  · exact List.pairwise_iff_getElem.mp hs i j hi hj hlt

/-- Folding `min` only lowers the accumulator. -/
lemma foldl_min_le_init (a : ℚ) (l : List ℚ) : l.foldl min a ≤ a := by
  induction l generalizing a with
  | nil => simp
  | cons x xs ih => exact le_trans (ih (min a x)) (min_le_left a x)

/-- Folding `min` bounds every element. -/
lemma foldl_min_le_of_mem (a : ℚ) (l : List ℚ) {x : ℚ} (hx : x ∈ l) :
    l.foldl min a ≤ x := by
  induction l generalizing a with
  | nil => cases hx
  | cons y ys ih =>
      rcases List.mem_cons.mp hx with rfl | hx2
      · exact le_trans (foldl_min_le_init (min a x) ys) (min_le_right a x)
      · exact ih (min a y) hx2

/-- Folding `max` only raises the accumulator. -/
lemma le_foldl_max_init (a : ℚ) (l : List ℚ) : a ≤ l.foldl max a := by
  induction l generalizing a with
  | nil => simp
  | cons x xs ih => exact le_trans (le_max_left a x) (ih (max a x))

/-- Folding `max` dominates every element. -/
lemma le_foldl_max_of_mem (a : ℚ) (l : List ℚ) {x : ℚ} (hx : x ∈ l) :
    x ≤ l.foldl max a := by
  induction l generalizing a with
  | nil => cases hx
  | cons y ys ih =>
      rcases List.mem_cons.mp hx with rfl | hx2
      · exact le_trans (le_max_right a x) (le_foldl_max_init (max a x) ys)
      · exact ih (max a y) hx2

/-- `pyMin` is a lower bound of the list. -/
lemma pyMin_le_of_mem {l : List ℚ} {x : ℚ} (hx : x ∈ l) : pyMin l ≤ x := by
  match l with
  | [] => cases hx
  | y :: ys =>
      show ys.foldl min y ≤ x
      rcases List.mem_cons.mp hx with rfl | hx2
      · exact foldl_min_le_init x ys
      · exact foldl_min_le_of_mem y ys hx2

/-- `pyMax` is an upper bound of the list. -/
lemma le_pyMax_of_mem {l : List ℚ} {x : ℚ} (hx : x ∈ l) : x ≤ pyMax l := by
  match l with
  | [] => cases hx
  | y :: ys =>
      show x ≤ ys.foldl max y
      rcases List.mem_cons.mp hx with rfl | hx2
      · exact le_foldl_max_init x ys
      · exact le_foldl_max_of_mem y ys hx2

/-- In-bounds entries of the sorted list are members of the original. -/
lemma sorted_getD_mem (d : List ℚ) (i : ℕ) (hi : i < d.length) :
    (pySorted d).getD i 0 ∈ d :=
  (pySorted_perm d).mem_iff.mp
    (getD_mem_of_lt _ i (by rw [pySorted_length]; exact hi))

/-- The median is at most the upper-middle entry of the sorted data. -/
lemma pyMedian_le_getD_half (d : List ℚ) (hd : d ≠ []) :
    pyMedian d ≤ (pySorted d).getD (d.length / 2) 0 := by
  have hlen : (pySorted d).length = d.length := pySorted_length d
  have hpos : 0 < d.length := List.length_pos.mpr hd
  simp only [pyMedian, hlen]
  split_ifs with hodd
  · exact le_refl _
  · have hab : (pySorted d).getD (d.length / 2 - 1) 0
        ≤ (pySorted d).getD (d.length / 2) 0 := by
      refine sorted_getD_mono _ (pySorted_sorted d) (Nat.sub_le _ _) ?_
      rw [hlen]
      exact Nat.div_lt_self hpos (by omega)
    linarith

/-- The median dominates the lower bound of the data. -/
lemma pyMin_le_pyMedian (d : List ℚ) (hd : d ≠ []) :
    pyMin d ≤ pyMedian d := by
  have hlen : (pySorted d).length = d.length := pySorted_length d
  have hpos : 0 < d.length := List.length_pos.mpr hd
  simp only [pyMedian, hlen]
  split_ifs with hodd
  · exact pyMin_le_of_mem
      (sorted_getD_mem d _ (Nat.div_lt_self hpos (by omega)))
  · have ha : pyMin d ≤ (pySorted d).getD (d.length / 2 - 1) 0 :=
      pyMin_le_of_mem (sorted_getD_mem d _
        (lt_of_le_of_lt (Nat.sub_le _ _) (Nat.div_lt_self hpos (by omega))))
    have hb : pyMin d ≤ (pySorted d).getD (d.length / 2) 0 :=
      pyMin_le_of_mem (sorted_getD_mem d _ (Nat.div_lt_self hpos (by omega)))
    linarith

/-- The median is at most the maximum of the data. -/
lemma pyMedian_le_pyMax (d : List ℚ) (hd : d ≠ []) :
    pyMedian d ≤ pyMax d := by
  have hpos : 0 < d.length := List.length_pos.mpr hd
  exact le_trans (pyMedian_le_getD_half d hd)
    (le_pyMax_of_mem (sorted_getD_mem d _ (Nat.div_lt_self hpos (by omega))))

/-- With at least `n` data points, the `(n-1)`-th exclusive `n`-quantile
needs no clamping and lies between the two sorted entries it interpolates:
its sort index `j = (n-1)(ld+1)/n` satisfies `1 ≤ j ≤ ld - 1` and the
value lies in `[data[j-1], data[j]]`. -/
lemma pyQuantilePoint_between (d : List ℚ) (n : ℕ) (hn : 2 ≤ n)
    (hld : n ≤ d.length) :
    1 ≤ (n - 1) * (d.length + 1) / n ∧
    (n - 1) * (d.length + 1) / n ≤ d.length - 1 ∧
    (pySorted d).getD ((n - 1) * (d.length + 1) / n - 1) 0
      ≤ pyQuantilePoint d n (n - 1) ∧
    pyQuantilePoint d n (n - 1) ≤
      (pySorted d).getD ((n - 1) * (d.length + 1) / n) 0 := by
  have hlen : (pySorted d).length = d.length := pySorted_length d
  have hn0 : 0 < n := by omega
  have hmul : (d.length + 1) ≤ (n - 1) * (d.length + 1) :=
    Nat.le_mul_of_pos_left _ (by omega)
  have h1 : 1 ≤ (n - 1) * (d.length + 1) / n := by
    rw [Nat.one_le_div_iff hn0]
    omega
  have hldz : (n : ℤ) ≤ (d.length : ℤ) := by exact_mod_cast hld
  have hlt : (n - 1) * (d.length + 1) < d.length * n := by
    zify [show 1 ≤ n by omega]
    nlinarith [hldz]
  have h2 : (n - 1) * (d.length + 1) / n < d.length := by
    rw [Nat.div_lt_iff_lt_mul hn0]
    exact hlt
  have hq_le : ((n - 1) * (d.length + 1) / n) * n ≤ (n - 1) * (d.length + 1) :=
    Nat.div_mul_le_self _ _
  have hq_lt : (n - 1) * (d.length + 1) <
      ((n - 1) * (d.length + 1) / n) * n + n := by
    have h0 := Nat.div_add_mod ((n - 1) * (d.length + 1)) n
    have hr := Nat.mod_lt ((n - 1) * (d.length + 1)) hn0
    calc (n - 1) * (d.length + 1)
        = n * ((n - 1) * (d.length + 1) / n) +
            (n - 1) * (d.length + 1) % n := h0.symm
      _ < n * ((n - 1) * (d.length + 1) / n) + n := Nat.add_lt_add_left hr _
      _ = ((n - 1) * (d.length + 1) / n) * n + n := by ring
  have hab : (pySorted d).getD ((n - 1) * (d.length + 1) / n - 1) 0
      ≤ (pySorted d).getD ((n - 1) * (d.length + 1) / n) 0 := by
    refine sorted_getD_mono _ (pySorted_sorted d) (Nat.sub_le _ _) ?_
    rw [hlen]
    exact h2
  have hnq : (0 : ℚ) < (n : ℚ) := by exact_mod_cast hn0
  have h0 := Nat.div_add_mod ((n - 1) * (d.length + 1)) n
  have h0z : ((n : ℤ)) * (((n - 1) * (d.length + 1) / n : ℕ) : ℤ) +
      (((n - 1) * (d.length + 1) % n : ℕ) : ℤ) =
      ((n - 1 : ℕ) : ℤ) * ((d.length + 1 : ℕ) : ℤ) := by
    exact_mod_cast congrArg (fun x : ℕ => (x : ℤ)) h0
  have hde : (((n - 1 : ℕ) : ℤ) * ((d.length + 1 : ℕ) : ℤ) -
      (((n - 1) * (d.length + 1) / n : ℕ) : ℤ) * (n : ℤ)) =
      (((n - 1) * (d.length + 1) % n : ℕ) : ℤ) := by
    linarith [h0z]
  have hr0 : (0 : ℚ) ≤ (((n - 1) * (d.length + 1) % n : ℕ) : ℚ) :=
    Nat.cast_nonneg _
  have hrn : (((n - 1) * (d.length + 1) % n : ℕ) : ℚ) ≤ (n : ℚ) := by
    exact_mod_cast le_of_lt (Nat.mod_lt _ hn0)
  refine ⟨h1, by omega, ?_, ?_⟩
  · simp only [pyQuantilePoint, hlen]
    rw [if_neg (by omega), if_neg (by omega), hde, Int.cast_natCast,
      le_div_iff₀ hnq]
    nlinarith [mul_nonneg (sub_nonneg.mpr hab) hr0]
  · simp only [pyQuantilePoint, hlen]
    rw [if_neg (by omega), if_neg (by omega), hde, Int.cast_natCast,
      div_le_iff₀ hnq]
    nlinarith [mul_nonneg (sub_nonneg.mpr hab) (sub_nonneg.mpr hrn)]

/-- With at least 20 data points the median is at most the p95 exclusive
quantile. -/
lemma pyMedian_le_pyQuantile20 (d : List ℚ) (h20 : 20 ≤ d.length) :
    pyMedian d ≤ pyQuantilePoint d 20 19 := by
  have hd : d ≠ [] := by
    intro hnil
    rw [hnil] at h20
    simp at h20
  obtain ⟨h1, h2, hlow, hhigh⟩ :=
    pyQuantilePoint_between d 20 (by omega) h20
  simp only [show (20 : ℕ) - 1 = 19 from rfl] at h1 h2 hlow hhigh
  have hj : d.length / 2 ≤ 19 * (d.length + 1) / 20 - 1 := by omega
  calc pyMedian d
      ≤ (pySorted d).getD (d.length / 2) 0 := pyMedian_le_getD_half d hd
    _ ≤ (pySorted d).getD (19 * (d.length + 1) / 20 - 1) 0 := by
        refine sorted_getD_mono _ (pySorted_sorted d) hj ?_
        rw [pySorted_length]
        omega
    _ ≤ pyQuantilePoint d 20 19 := hlow

/-- The last exclusive `n`-quantile is at most the maximum. -/
lemma pyQuantile_le_pyMax (d : List ℚ) (n : ℕ) (hn : 2 ≤ n)
    (hld : n ≤ d.length) : pyQuantilePoint d n (n - 1) ≤ pyMax d := by
  obtain ⟨h1, h2, hlow, hhigh⟩ := pyQuantilePoint_between d n hn hld
  refine le_trans hhigh (le_pyMax_of_mem (sorted_getD_mem d _ ?_))
  omega

/-- With at least 100 data points the p95 exclusive quantile is at most
the p99 exclusive quantile. -/
lemma pyQuantile20_le_pyQuantile100 (d : List ℚ) (h100 : 100 ≤ d.length) :
    pyQuantilePoint d 20 19 ≤ pyQuantilePoint d 100 99 := by
  obtain ⟨h1a, h2a, hlowa, hhigha⟩ :=
    pyQuantilePoint_between d 20 (by omega) (by omega)
  obtain ⟨h1b, h2b, hlowb, hhighb⟩ :=
    pyQuantilePoint_between d 100 (by omega) h100
  simp only [show (20 : ℕ) - 1 = 19 from rfl] at h1a h2a hlowa hhigha
  simp only [show (100 : ℕ) - 1 = 99 from rfl] at h1b h2b hlowb hhighb
  have hij : 19 * (d.length + 1) / 20 ≤ 99 * (d.length + 1) / 100 - 1 := by
    omega
  calc pyQuantilePoint d 20 19
      ≤ (pySorted d).getD (19 * (d.length + 1) / 20) 0 := hhigha
    _ ≤ (pySorted d).getD (99 * (d.length + 1) / 100 - 1) 0 := by
        refine sorted_getD_mono _ (pySorted_sorted d) hij ?_
        rw [pySorted_length]
        omega
    _ ≤ pyQuantilePoint d 100 99 := hlowb

/-- C4: for every result list whose list of positive durations is
non-empty, the computed metrics satisfy
`min_duration ≤ p50 ≤ p95 ≤ p99 ≤ max_duration`. -/
theorem calculate_metrics_percentile_order (tn : String) (ts te : ℚ)
    (results : List UploadResult)
    (h : results.filterMap
        (fun r => if 0 < r.duration then some r.duration else none) ≠ []) :
    let M := calculate_metrics tn ts te results
    M.min_duration ≤ M.p50_duration ∧
    M.p50_duration ≤ M.p95_duration ∧
    M.p95_duration ≤ M.p99_duration ∧
    M.p99_duration ≤ M.max_duration := by
  intro M
  set d := results.filterMap
    (fun r => if 0 < r.duration then some r.duration else none) with hdDef
  have hmin : M.min_duration = pyMin d := by
    show (if d ≠ [] then pyMin d else 0) = pyMin d
    rw [if_pos h]
  have hp50 : M.p50_duration = pyMedian d := by
    show (if d ≠ [] then pyMedian d else 0) = pyMedian d
    rw [if_pos h]
  have hmax : M.max_duration = pyMax d := by
    show (if d ≠ [] then pyMax d else 0) = pyMax d
    rw [if_pos h]
  have hp95 : M.p95_duration =
      if 20 ≤ d.length then pyQuantilePoint d 20 19 else pyMax d := by
    show (if 20 ≤ d.length then pyQuantilePoint d 20 19
      else if d ≠ [] then pyMax d else 0) = _
    by_cases h20 : 20 ≤ d.length
    · rw [if_pos h20, if_pos h20]
    · rw [if_neg h20, if_neg h20, if_pos h]
  have hp99 : M.p99_duration =
      if 100 ≤ d.length then pyQuantilePoint d 100 99 else pyMax d := by
    show (if 100 ≤ d.length then pyQuantilePoint d 100 99
      else if d ≠ [] then pyMax d else 0) = _
    by_cases h100 : 100 ≤ d.length
    · rw [if_pos h100, if_pos h100]
    · rw [if_neg h100, if_neg h100, if_pos h]
  rw [hmin, hp50, hmax, hp95, hp99]
  by_cases h20 : 20 ≤ d.length
  · by_cases h100 : 100 ≤ d.length
    · rw [if_pos h20, if_pos h100]
      exact ⟨pyMin_le_pyMedian d h, pyMedian_le_pyQuantile20 d h20,
        pyQuantile20_le_pyQuantile100 d h100,
        pyQuantile_le_pyMax d 100 (by omega) h100⟩
    · rw [if_pos h20, if_neg h100]
      exact ⟨pyMin_le_pyMedian d h, pyMedian_le_pyQuantile20 d h20,
        pyQuantile_le_pyMax d 20 (by omega) h20, le_refl _⟩
  · by_cases h100 : 100 ≤ d.length
    · exact absurd (by omega : 20 ≤ d.length) h20
    · rw [if_neg h20, if_neg h100]
      exact ⟨pyMin_le_pyMedian d h, pyMedian_le_pyMax d h, le_refl _,
        le_refl _⟩

/-- Witness for `calculate_metrics_percentile_order` at a one-element
result list with positive duration. -/
theorem calculate_metrics_percentile_order_witness :
    ([sampleOkResult].filterMap
        (fun r => if 0 < r.duration then some r.duration else none) ≠ []) ∧
    (let M := calculate_metrics "n" 0 1 [sampleOkResult]
     M.min_duration ≤ M.p50_duration ∧
     M.p50_duration ≤ M.p95_duration ∧
     M.p95_duration ≤ M.p99_duration ∧
     M.p99_duration ≤ M.max_duration) :=
  ⟨by simp [sampleOkResult],
    calculate_metrics_percentile_order "n" 0 1 [sampleOkResult]
      (by simp [sampleOkResult])⟩
